import Mathlib

/-!
Shallow embedding of the Hyperspeedcube presentation loop (`src/main.rs`):
the window-event dispatch pass, the redraw/frame-pacing iteration with its
surface-acquisition error handling, the puzzle-texture bridge, the frame-rate
diagnostic, the theme switching functions, and the application-icon loader.

External collaborators (winit, egui, wgpu, the `png` crate, the `App` and
`gui` modules) are modelled as oracle parameters or abstract outcome types;
the control flow of `run`, `load_application_icon`, `switch_to_dark_mode`,
`switch_to_light_mode` and `set_style_overrides` is translated directly from
the source. Time (`Instant`) is modelled in whole milliseconds as `Nat`.
-/

namespace Hyperspeedcube

/-! ## Event model (winit window events, as matched by `run`) -/

inductive KeyState where
  | Pressed
  | Released
deriving DecidableEq

inductive WinTheme where
  | Light
  | Dark
deriving DecidableEq

/-- The window-event variants that `run`'s dispatch pass distinguishes.
`OtherEvent` stands for every variant the source handles with a wildcard. -/
inductive WindowEvent where
  | KeyboardInput (keyState : KeyState) (code : Nat)
  | ModifiersChanged (mods : Nat)
  | Resized (w h : Nat)
  | ScaleFactorChanged (factor w h : Nat)
  | ThemeChanged (t : WinTheme)
  | OtherEvent (tag : Nat)
deriving DecidableEq

/-- `src/main.rs:185-202`: key-release and modifiers-changed events must not
be captured by egui ("Key release events should always be processed by the
app to make sure there's no stuck keys"). -/
def allow_egui_capture : WindowEvent → Bool
  | .KeyboardInput .Released _ => false
  | .ModifiersChanged _ => false
  | _ => true

/-- Events the claims call "release-type": a key-up or a modifiers-changed
notification. -/
def isReleaseEvent : WindowEvent → Bool
  | .KeyboardInput .Released _ => true
  | .ModifiersChanged _ => true
  | _ => false

/-- Events handled structurally by the window-event match
(`src/main.rs:227-239`): resize, scale-factor change, theme change. -/
def isStructuralEvent : WindowEvent → Bool
  | .Resized _ _ => true
  | .ScaleFactorChanged _ _ _ => true
  | .ThemeChanged _ => true
  | _ => false

/-- The structural side effect performed by the match arms of
`src/main.rs:227-239`. -/
inductive StructuralAction where
  | surfaceResize (w h : Nat)
  | scaleUpdate (factor w h : Nat)
  | themeApply (t : WinTheme)
deriving DecidableEq

/-! ## Loop state

Mutable locals of `run` relevant to the claims: `next_frame_time`,
`gfx.size` and `gfx.scale_factor`, `*control_flow`, the frame-rate counters,
and the (immutable) `puzzle_texture_id`. -/

structure LoopState where
  next_frame_time : Nat
  size_w : Nat
  size_h : Nat
  scale_factor : Nat
  exit_requested : Bool
  frames_this_second : Nat
  last_second : Nat
  last_fps : Nat
  puzzle_texture_id : Nat
deriving DecidableEq

/-- What the dispatch pass did with one window event. -/
structure DispatchOutcome where
  /-- `egui_winit_state.on_event` was invoked with the event
  (`src/main.rs:219-225`). -/
  egui_offered : Bool
  /-- egui's consumption was counted into `event_has_been_captured`
  (`r.consumed && allow_egui_capture`). -/
  egui_claimed : Bool
  /-- `app.handle_window_event` was invoked (`src/main.rs:241-243`). -/
  app_received : Bool
  /-- The structural handling performed, if any (`src/main.rs:227-239`). -/
  structural : Option StructuralAction
  /-- Final value of `event_has_been_captured`. -/
  captured : Bool
deriving DecidableEq

/-- One window-event dispatch pass of `run` (`src/main.rs:183-253`).
`popupCaptures` models `gui::key_combo_popup_captures_event` and
`eguiConsumes` models `egui_winit_state.on_event(..).consumed`, both
external to this file's source. Returns the updated loop state and the
dispatch outcome. -/
def processWindowEvent (popupCaptures eguiConsumes : WindowEvent → Bool)
    (ev : WindowEvent) (st : LoopState) : LoopState × DispatchOutcome :=
  let captured0 := popupCaptures ev
  let egui_offered := !captured0
  let egui_claimed := egui_offered && eguiConsumes ev && allow_egui_capture ev
  let captured := captured0 || egui_claimed
  match ev with
  | .Resized w h =>
      ({ st with size_w := w, size_h := h },
       ⟨egui_offered, egui_claimed, false, some (.surfaceResize w h), captured⟩)
  | .ScaleFactorChanged factor w h =>
      ({ st with scale_factor := factor, size_w := w, size_h := h },
       ⟨egui_offered, egui_claimed, false, some (.scaleUpdate factor w h), captured⟩)
  | .ThemeChanged t =>
      (st, ⟨egui_offered, egui_claimed, false, some (.themeApply t), captured⟩)
  | _ =>
      (st, ⟨egui_offered, egui_claimed, !captured, none, captured⟩)

/-- A concrete loop state used to instantiate witnesses. -/
def st0 : LoopState :=
  ⟨0, 0, 0, 0, false, 0, 0, 0, 0⟩

/-- C1: released keys and modifier changes are never claimed by egui, and
reach the app whenever the popup did not capture them. -/
theorem C1_key_release_never_egui_claimed
    (popupCaptures eguiConsumes : WindowEvent → Bool)
    (ev : WindowEvent) (st : LoopState) (h : isReleaseEvent ev = true) :
    (processWindowEvent popupCaptures eguiConsumes ev st).2.egui_claimed = false ∧
    (popupCaptures ev = false →
      (processWindowEvent popupCaptures eguiConsumes ev st).2.app_received = true) := by
  cases ev with
  | KeyboardInput ks code =>
      cases ks with
      | Pressed => simp [isReleaseEvent] at h
      | Released =>
          constructor
          · simp [processWindowEvent, allow_egui_capture]
          · intro hp
            simp [processWindowEvent, allow_egui_capture, hp]
  | ModifiersChanged m =>
      constructor
      · simp [processWindowEvent, allow_egui_capture]
      · intro hp
        simp [processWindowEvent, allow_egui_capture, hp]
  | Resized w h' => simp [isReleaseEvent] at h
  | ScaleFactorChanged f w h' => simp [isReleaseEvent] at h
  | ThemeChanged t => simp [isReleaseEvent] at h
  | OtherEvent tag => simp [isReleaseEvent] at h

/-- Witness for C1 at a concrete key-up event with the popup closed. -/
theorem C1_witness :
    isReleaseEvent (.KeyboardInput .Released 7) = true ∧
    ((processWindowEvent (fun _ => false) (fun _ => true)
        (.KeyboardInput .Released 7) st0).2.egui_claimed = false ∧
     ((fun (_ : WindowEvent) => false) (.KeyboardInput .Released 7) = false →
      (processWindowEvent (fun _ => false) (fun _ => true)
        (.KeyboardInput .Released 7) st0).2.app_received = true)) :=
  ⟨by decide,
   C1_key_release_never_egui_claimed (fun _ => false) (fun _ => true)
     (.KeyboardInput .Released 7) st0 (by decide)⟩

/-- The structural action the match arms of `src/main.rs:227-239` perform
for a given event kind. -/
def structuralActionFor : WindowEvent → Option StructuralAction
  | .Resized w h => some (.surfaceResize w h)
  | .ScaleFactorChanged factor w h => some (.scaleUpdate factor w h)
  | .ThemeChanged t => some (.themeApply t)
  | _ => none

/-- C5 counterexample: a `Resized` event with the popup closed IS offered to
the UI layer (`egui_winit_state.on_event` is called with it at
`src/main.rs:220` before the structural match), contradicting the claim
that structural events short-circuit before the UI layer is offered them. -/
theorem C5_counterexample :
    isStructuralEvent (.Resized 800 600) = true ∧
    (processWindowEvent (fun _ => false) (fun _ => false)
      (.Resized 800 600) st0).2.egui_offered = true := by
  decide

/-- C5 amended: structural events are handled structurally and never reach
the application layer, but they do not short-circuit before the UI layer:
egui is offered the event exactly when the popup did not capture it. -/
theorem C5_structural_events
    (popupCaptures eguiConsumes : WindowEvent → Bool)
    (ev : WindowEvent) (st : LoopState) (h : isStructuralEvent ev = true) :
    (processWindowEvent popupCaptures eguiConsumes ev st).2.app_received = false ∧
    (processWindowEvent popupCaptures eguiConsumes ev st).2.structural =
      structuralActionFor ev ∧
    (processWindowEvent popupCaptures eguiConsumes ev st).2.egui_offered =
      !popupCaptures ev := by
  cases ev with
  | Resized w h' => simp [processWindowEvent, structuralActionFor]
  | ScaleFactorChanged f w h' => simp [processWindowEvent, structuralActionFor]
  | ThemeChanged t => simp [processWindowEvent, structuralActionFor]
  | KeyboardInput ks code => simp [isStructuralEvent] at h
  | ModifiersChanged m => simp [isStructuralEvent] at h
  | OtherEvent tag => simp [isStructuralEvent] at h

/-- Witness for C5's amended theorem at a concrete resize event. -/
theorem C5_witness :
    isStructuralEvent (.Resized 800 600) = true ∧
    ((processWindowEvent (fun _ => true) (fun _ => false)
        (.Resized 800 600) st0).2.app_received = false ∧
     (processWindowEvent (fun _ => true) (fun _ => false)
        (.Resized 800 600) st0).2.structural =
       structuralActionFor (.Resized 800 600) ∧
     (processWindowEvent (fun _ => true) (fun _ => false)
        (.Resized 800 600) st0).2.egui_offered =
       !(fun (_ : WindowEvent) => true) (.Resized 800 600)) :=
  ⟨by decide,
   C5_structural_events (fun _ => true) (fun _ => false)
     (.Resized 800 600) st0 (by decide)⟩

/-! ## Redraw iteration (`Event::RedrawRequested`, `src/main.rs:265-408`) -/

/-- Outcome of `gfx.surface.get_current_texture()`. `Good` is the `Ok` case;
the error cases are the variants of `wgpu::SurfaceError`, of which `Timeout`
is the one caught by the wildcard arm (`src/main.rs:333`). -/
inductive AcquireOutcome where
  | Good
  | Outdated
  | Lost
  | OutOfMemory
  | Timeout
deriving DecidableEq

/-- Per-iteration inputs from external collaborators: egui's
`repaint_after.is_zero()`, the result of `app.draw_puzzle` (the produced
texture, if any), the surface-acquisition outcome, the three clock readings
the iteration takes (`now` at `src/main.rs:266`, a fresh `Instant::now()` at
line 308 and another at line 401, in milliseconds), and
`app.prefs.gfx.frame_duration()`. -/
structure RedrawInputs where
  repaint_after_zero : Bool
  draw_result : Option Nat
  acquire : AcquireOutcome
  now : Nat
  now2 : Nat
  now3 : Nat
  frame_duration : Nat
deriving DecidableEq

/-- Observable effects of one redraw iteration. -/
structure IterStats where
  /-- `app.frame()` ran (the iteration entered the paced block, i.e. the
  `Produce` decision). -/
  app_frame_ran : Bool
  /-- Number of frames submitted and presented this iteration. -/
  frames_presented : Nat
  /-- Sizes passed to `gfx.resize` from the acquisition error handler. -/
  reconfigure_calls : List (Nat × Nat)
  /-- `*control_flow = ControlFlow::Exit` was executed this iteration. -/
  exit_set_this_iter : Bool
  /-- `log::warn!("Dropped frame with error: ...")` was emitted. -/
  warn_logged : Bool
  /-- Number of `update_egui_texture_from_wgpu_texture` calls. -/
  texture_updates : Nat
  /-- A repaint was requested on behalf of the puzzle texture
  (`src/main.rs:302`). -/
  puzzle_repaint_requested : Bool
deriving DecidableEq

/-- `src/main.rs:307-311`: advance `next_frame_time` by one frame duration;
if it is still behind a fresh clock reading, resynchronize to
`now + frame_duration` ("Skip a frame (or several)."). -/
def advance_next_frame_time (nft frame_duration now now2 : Nat) : Nat :=
  if nft + frame_duration < now2 then now + frame_duration
  else nft + frame_duration

/-- `src/main.rs:399-405`: increment `frames_this_second`; if at least one
whole second has elapsed since `last_second`, record the FPS, zero the
counter and advance `last_second` by exactly one second. -/
def update_framerate (now3 : Nat) (st : LoopState) : LoopState :=
  let cnt := st.frames_this_second + 1
  if 1 ≤ (now3 - st.last_second) / 1000 then
    { st with last_fps := cnt, frames_this_second := 0,
              last_second := st.last_second + 1000 }
  else
    { st with frames_this_second := cnt }

/-- One `RedrawRequested` iteration (`src/main.rs:265-408`): the puzzle
texture bridge runs unconditionally (lines 290-303); the paced block runs
only when egui wants a repaint now and `next_frame_time <= now` (line 305);
inside it `next_frame_time` is advanced, `app.frame()` runs, the surface is
acquired, and on success the frame is rendered, presented, and counted. -/
def redraw_requested (inp : RedrawInputs) (st : LoopState) :
    LoopState × IterStats :=
  let texture_updates := if inp.draw_result.isSome then 1 else 0
  let puzzle_repaint := inp.draw_result.isSome
  if inp.repaint_after_zero = true ∧ st.next_frame_time ≤ inp.now then
    let nft := advance_next_frame_time st.next_frame_time inp.frame_duration
      inp.now inp.now2
    let st1 := { st with next_frame_time := nft }
    match inp.acquire with
    | .Good =>
        (update_framerate inp.now3 st1,
         ⟨true, 1, [], false, false, texture_updates, puzzle_repaint⟩)
    | .Outdated =>
        (st1, ⟨true, 0, [], false, false, texture_updates, puzzle_repaint⟩)
    | .Lost =>
        (st1, ⟨true, 0, [(st.size_w, st.size_h)], false, false,
               texture_updates, puzzle_repaint⟩)
    | .OutOfMemory =>
        ({ st1 with exit_requested := true },
         ⟨true, 0, [], true, false, texture_updates, puzzle_repaint⟩)
    | .Timeout =>
        (st1, ⟨true, 0, [], false, true, texture_updates, puzzle_repaint⟩)
  else
    (st, ⟨false, 0, [], false, false, texture_updates, puzzle_repaint⟩)

lemma update_framerate_next_frame_time (now3 : Nat) (st : LoopState) :
    (update_framerate now3 st).next_frame_time = st.next_frame_time := by
  unfold update_framerate
  split <;> rfl

lemma update_framerate_exit_requested (now3 : Nat) (st : LoopState) :
    (update_framerate now3 st).exit_requested = st.exit_requested := by
  unfold update_framerate
  split <;> rfl

lemma update_framerate_puzzle_texture_id (now3 : Nat) (st : LoopState) :
    (update_framerate now3 st).puzzle_texture_id = st.puzzle_texture_id := by
  unfold update_framerate
  split <;> rfl

lemma advance_next_frame_time_le (nft d now now2 : Nat) (h : nft ≤ now) :
    advance_next_frame_time nft d now now2 ≤ now + d := by
  unfold advance_next_frame_time
  split <;> omega

lemma advance_next_frame_time_ge (nft d now now2 : Nat) (h : now ≤ now2) :
    now ≤ advance_next_frame_time nft d now now2 := by
  unfold advance_next_frame_time
  split <;> omega

lemma advance_next_frame_time_gt (nft d now now2 : Nat) (hd : 0 < d)
    (h : nft ≤ now) :
    nft < advance_next_frame_time nft d now now2 := by
  unfold advance_next_frame_time
  split <;> omega

/-- C2: the paced block runs iff egui wants a repaint now and
`now >= next_frame_time`; at most one frame is presented per iteration; and
on production `next_frame_time` is advanced by one frame duration with the
stall resynchronization of `advance_next_frame_time`, which leaves the next
scheduled time within one frame duration of `now`. -/
theorem C2_frame_pacing (inp : RedrawInputs) (st : LoopState)
    (hnow : inp.now ≤ inp.now2) :
    ((redraw_requested inp st).2.app_frame_ran = true ↔
      (inp.repaint_after_zero = true ∧ st.next_frame_time ≤ inp.now)) ∧
    (redraw_requested inp st).2.frames_presented ≤ 1 ∧
    ((redraw_requested inp st).2.app_frame_ran = true →
      (redraw_requested inp st).1.next_frame_time =
        advance_next_frame_time st.next_frame_time inp.frame_duration
          inp.now inp.now2 ∧
      inp.now ≤ (redraw_requested inp st).1.next_frame_time ∧
      (redraw_requested inp st).1.next_frame_time ≤
        inp.now + inp.frame_duration) := by
  by_cases hg : inp.repaint_after_zero = true ∧ st.next_frame_time ≤ inp.now
  · obtain ⟨hz, hle⟩ := hg
    have h1 := advance_next_frame_time_ge st.next_frame_time
      inp.frame_duration inp.now inp.now2 hnow
    have h2 := advance_next_frame_time_le st.next_frame_time
      inp.frame_duration inp.now inp.now2 hle
    cases hacq : inp.acquire <;>
      simp [redraw_requested, hz, hle, hacq,
        update_framerate_next_frame_time, h1, h2]
  · simp [redraw_requested, hg]

/-- Witness for C2 at concrete inputs. -/
theorem C2_witness :
    (5 : Nat) ≤ 5 ∧
    (((redraw_requested ⟨true, none, .Good, 5, 5, 5, 16⟩ st0).2.app_frame_ran
        = true ↔ (true = true ∧ st0.next_frame_time ≤ 5)) ∧
     (redraw_requested ⟨true, none, .Good, 5, 5, 5, 16⟩ st0).2.frames_presented
        ≤ 1 ∧
     ((redraw_requested ⟨true, none, .Good, 5, 5, 5, 16⟩ st0).2.app_frame_ran
        = true →
      (redraw_requested ⟨true, none, .Good, 5, 5, 5, 16⟩ st0).1.next_frame_time
        = advance_next_frame_time st0.next_frame_time 16 5 5 ∧
      5 ≤ (redraw_requested ⟨true, none, .Good, 5, 5, 5, 16⟩
            st0).1.next_frame_time ∧
      (redraw_requested ⟨true, none, .Good, 5, 5, 5, 16⟩ st0).1.next_frame_time
        ≤ 5 + 16)) :=
  ⟨by decide, C2_frame_pacing ⟨true, none, .Good, 5, 5, 5, 16⟩ st0 (by decide)⟩

/-- C3: under the pacing guard, an `OutOfMemory` acquisition outcome sets the
exit control flow with no frame presented and no reconfigure attempted that
iteration, and it is the only acquisition outcome that sets it. -/
theorem C3_out_of_memory_is_fatal (inp : RedrawInputs) (st : LoopState)
    (hz : inp.repaint_after_zero = true)
    (hle : st.next_frame_time ≤ inp.now)
    (hexit : st.exit_requested = false) :
    (inp.acquire = .OutOfMemory →
      (redraw_requested inp st).1.exit_requested = true ∧
      (redraw_requested inp st).2.exit_set_this_iter = true ∧
      (redraw_requested inp st).2.frames_presented = 0 ∧
      (redraw_requested inp st).2.reconfigure_calls = []) ∧
    (inp.acquire ≠ .OutOfMemory →
      (redraw_requested inp st).1.exit_requested = false ∧
      (redraw_requested inp st).2.exit_set_this_iter = false) := by
  constructor
  · intro hacq
    simp [redraw_requested, hz, hle, hacq]
  · intro hacq
    cases h : inp.acquire <;>
      simp_all [redraw_requested, hz, hle, update_framerate_exit_requested]

/-- Witness for C3 at concrete inputs (both conjuncts exercised at
`OutOfMemory` and at `Lost` respectively). -/
theorem C3_witness :
    ((redraw_requested ⟨true, none, .OutOfMemory, 9, 9, 9, 16⟩
        st0).1.exit_requested = true ∧
     (redraw_requested ⟨true, none, .OutOfMemory, 9, 9, 9, 16⟩
        st0).2.exit_set_this_iter = true ∧
     (redraw_requested ⟨true, none, .OutOfMemory, 9, 9, 9, 16⟩
        st0).2.frames_presented = 0 ∧
     (redraw_requested ⟨true, none, .OutOfMemory, 9, 9, 9, 16⟩
        st0).2.reconfigure_calls = []) ∧
    ((redraw_requested ⟨true, none, .Lost, 9, 9, 9, 16⟩
        st0).1.exit_requested = false ∧
     (redraw_requested ⟨true, none, .Lost, 9, 9, 9, 16⟩
        st0).2.exit_set_this_iter = false) :=
  ⟨(C3_out_of_memory_is_fatal ⟨true, none, .OutOfMemory, 9, 9, 9, 16⟩ st0
      (by decide) (by decide) (by decide)).1 rfl,
   (C3_out_of_memory_is_fatal ⟨true, none, .Lost, 9, 9, 9, 16⟩ st0
      (by decide) (by decide) (by decide)).2 (by decide)⟩

/-- C10: on any non-fatal acquisition failure the iteration's effects are
not rolled back: `app.frame()` has already run and `next_frame_time` has
already been strictly advanced, while no frame is presented (the frame slot
is consumed). -/
theorem C10_no_rollback_on_failure (inp : RedrawInputs) (st : LoopState)
    (hz : inp.repaint_after_zero = true)
    (hle : st.next_frame_time ≤ inp.now)
    (hd : 0 < inp.frame_duration)
    (hfail : inp.acquire = .Outdated ∨ inp.acquire = .Lost ∨
             inp.acquire = .Timeout) :
    (redraw_requested inp st).2.app_frame_ran = true ∧
    (redraw_requested inp st).2.frames_presented = 0 ∧
    (redraw_requested inp st).1.next_frame_time =
      advance_next_frame_time st.next_frame_time inp.frame_duration
        inp.now inp.now2 ∧
    st.next_frame_time < (redraw_requested inp st).1.next_frame_time := by
  rcases hfail with hacq | hacq | hacq <;>
    simp [redraw_requested, hz, hle, hacq,
      advance_next_frame_time_gt st.next_frame_time inp.frame_duration
        inp.now inp.now2 hd hle]

/-- Witness for C10 at a concrete `Outdated` failure. -/
theorem C10_witness :
    (redraw_requested ⟨true, none, .Outdated, 9, 9, 9, 16⟩
       st0).2.app_frame_ran = true ∧
    (redraw_requested ⟨true, none, .Outdated, 9, 9, 9, 16⟩
       st0).2.frames_presented = 0 ∧
    (redraw_requested ⟨true, none, .Outdated, 9, 9, 9, 16⟩
       st0).1.next_frame_time =
      advance_next_frame_time st0.next_frame_time 16 9 9 ∧
    st0.next_frame_time <
      (redraw_requested ⟨true, none, .Outdated, 9, 9, 9, 16⟩
         st0).1.next_frame_time :=
  C10_no_rollback_on_failure ⟨true, none, .Outdated, 9, 9, 9, 16⟩ st0
    (by decide) (by decide) (by decide) (Or.inl rfl)

/-! ## Frame-rate diagnostic (C8) -/

/-- C8 counterexample: starting from the boundary at 0 ms, a frame at
2500 ms (a 2.5 s stall) advances `last_second` by exactly one second, to
1000 ms — not by "as many whole seconds as elapsed" (which would be 2000 ms).
Consequently the very next frame, at 2600 ms, resets the counter again even
though only 100 ms of frames were counted: the window IS reset prematurely
after a stall longer than one second. -/
theorem C8_counterexample :
    (update_framerate 2500 st0).last_second ≠
      st0.last_second + 1000 * ((2500 - st0.last_second) / 1000) ∧
    1 ≤ (2600 - (update_framerate 2500 st0).last_second) / 1000 := by
  decide

/-- C8 amended: the counter is reset whenever at least one whole second has
elapsed since the window boundary, and on reset the boundary advances by
exactly one second (never snapped to `now`); otherwise the counter is
incremented and the boundary is unchanged. -/
theorem C8_framerate_window (now3 : Nat) (st : LoopState) :
    (1 ≤ (now3 - st.last_second) / 1000 →
      update_framerate now3 st =
        { st with last_fps := st.frames_this_second + 1,
                  frames_this_second := 0,
                  last_second := st.last_second + 1000 }) ∧
    ((now3 - st.last_second) / 1000 = 0 →
      update_framerate now3 st =
        { st with frames_this_second := st.frames_this_second + 1 }) := by
  constructor
  · intro h
    simp [update_framerate, h]
  · intro h
    simp [update_framerate, h]

/-- Witness for C8's amended theorem: both branches exercised at concrete
times. -/
theorem C8_witness :
    (update_framerate 1500 st0 =
      { st0 with last_fps := st0.frames_this_second + 1,
                 frames_this_second := 0,
                 last_second := st0.last_second + 1000 }) ∧
    (update_framerate 900 st0 =
      { st0 with frames_this_second := st0.frames_this_second + 1 }) :=
  ⟨(C8_framerate_window 1500 st0).1 (by decide),
   (C8_framerate_window 900 st0).2 (by decide)⟩

/-! ## Acquisition outcome sequences (C4) -/

lemma redraw_outdated_eval (inp : RedrawInputs) (st : LoopState)
    (hz : inp.repaint_after_zero = true)
    (hle : st.next_frame_time ≤ inp.now)
    (ha : inp.acquire = .Outdated) :
    redraw_requested inp st =
      ({ st with next_frame_time := (advance_next_frame_time
           st.next_frame_time inp.frame_duration inp.now inp.now2) },
       ⟨true, 0, [], false, false,
        if inp.draw_result.isSome then 1 else 0, inp.draw_result.isSome⟩) := by
  simp [redraw_requested, hz, hle, ha]

lemma redraw_lost_eval (inp : RedrawInputs) (st : LoopState)
    (hz : inp.repaint_after_zero = true)
    (hle : st.next_frame_time ≤ inp.now)
    (ha : inp.acquire = .Lost) :
    redraw_requested inp st =
      ({ st with next_frame_time := (advance_next_frame_time
           st.next_frame_time inp.frame_duration inp.now inp.now2) },
       ⟨true, 0, [(st.size_w, st.size_h)], false, false,
        if inp.draw_result.isSome then 1 else 0, inp.draw_result.isSome⟩) := by
  simp [redraw_requested, hz, hle, ha]

lemma redraw_good_eval (inp : RedrawInputs) (st : LoopState)
    (hz : inp.repaint_after_zero = true)
    (hle : st.next_frame_time ≤ inp.now)
    (ha : inp.acquire = .Good) :
    redraw_requested inp st =
      (update_framerate inp.now3
         { st with next_frame_time := (advance_next_frame_time
             st.next_frame_time inp.frame_duration inp.now inp.now2) },
       ⟨true, 1, [], false, false,
        if inp.draw_result.isSome then 1 else 0, inp.draw_result.isSome⟩) := by
  simp [redraw_requested, hz, hle, ha]

lemma redraw_timeout_eval (inp : RedrawInputs) (st : LoopState)
    (hz : inp.repaint_after_zero = true)
    (hle : st.next_frame_time ≤ inp.now)
    (ha : inp.acquire = .Timeout) :
    redraw_requested inp st =
      ({ st with next_frame_time := (advance_next_frame_time
           st.next_frame_time inp.frame_duration inp.now inp.now2) },
       ⟨true, 0, [], false, true,
        if inp.draw_result.isSome then 1 else 0, inp.draw_result.isSome⟩) := by
  simp [redraw_requested, hz, hle, ha]

/-- C4: over three consecutive paced redraw iterations with acquisition
outcomes `[Outdated, Lost, Good]`, exactly one reconfigure occurs — on the
`Lost` iteration, with the last known size — no frame is presented on the
first two iterations and exactly one on the third; and any other
backend-reported failure (`Timeout`) is logged as a warning with the frame
silently dropped. -/
theorem C4_outdated_lost_configured (st : LoopState)
    (d now1 now2 now3 : Nat) (dr1 dr2 dr3 : Option Nat)
    (h1 : st.next_frame_time ≤ now1) (h2 : now1 + d ≤ now2)
    (h3 : now2 + d ≤ now3) :
    ((redraw_requested ⟨true, dr1, .Outdated, now1, now1, now1, d⟩
        st).2.reconfigure_calls = [] ∧
     (redraw_requested ⟨true, dr1, .Outdated, now1, now1, now1, d⟩
        st).2.frames_presented = 0) ∧
    ((redraw_requested ⟨true, dr2, .Lost, now2, now2, now2, d⟩
        (redraw_requested ⟨true, dr1, .Outdated, now1, now1, now1, d⟩
          st).1).2.reconfigure_calls = [(st.size_w, st.size_h)] ∧
     (redraw_requested ⟨true, dr2, .Lost, now2, now2, now2, d⟩
        (redraw_requested ⟨true, dr1, .Outdated, now1, now1, now1, d⟩
          st).1).2.frames_presented = 0) ∧
    ((redraw_requested ⟨true, dr3, .Good, now3, now3, now3, d⟩
        (redraw_requested ⟨true, dr2, .Lost, now2, now2, now2, d⟩
          (redraw_requested ⟨true, dr1, .Outdated, now1, now1, now1, d⟩
            st).1).1).2.reconfigure_calls = [] ∧
     (redraw_requested ⟨true, dr3, .Good, now3, now3, now3, d⟩
        (redraw_requested ⟨true, dr2, .Lost, now2, now2, now2, d⟩
          (redraw_requested ⟨true, dr1, .Outdated, now1, now1, now1, d⟩
            st).1).1).2.frames_presented = 1) ∧
    (∀ inp : RedrawInputs, ∀ st4 : LoopState,
      inp.repaint_after_zero = true → st4.next_frame_time ≤ inp.now →
      inp.acquire = .Timeout →
      (redraw_requested inp st4).2.warn_logged = true ∧
      (redraw_requested inp st4).2.frames_presented = 0) := by
  have e1 := redraw_outdated_eval ⟨true, dr1, .Outdated, now1, now1, now1, d⟩
    st rfl h1 rfl
  have hle2 : advance_next_frame_time st.next_frame_time d now1 now1 ≤ now2 :=
    le_trans (advance_next_frame_time_le _ _ _ _ h1) h2
  have e2 := redraw_lost_eval ⟨true, dr2, .Lost, now2, now2, now2, d⟩
    { st with next_frame_time := (advance_next_frame_time
        st.next_frame_time d now1 now1) } rfl hle2 rfl
  have hle3 : advance_next_frame_time
      (advance_next_frame_time st.next_frame_time d now1 now1) d now2 now2
      ≤ now3 :=
    le_trans (advance_next_frame_time_le _ _ _ _ hle2) h3
  have e3 := redraw_good_eval ⟨true, dr3, .Good, now3, now3, now3, d⟩
    { st with next_frame_time := (advance_next_frame_time
        (advance_next_frame_time st.next_frame_time d now1 now1) d
        now2 now2) } rfl hle3 rfl
  refine ⟨⟨?_, ?_⟩, ⟨?_, ?_⟩, ⟨?_, ?_⟩, ?_⟩
  · rw [e1]
  · rw [e1]
  · rw [e1, e2]
  · rw [e1, e2]
  · rw [e1, e2, e3]
  · rw [e1, e2, e3]
  · intro inp st4 hz hle ha
    rw [redraw_timeout_eval inp st4 hz hle ha]
    exact ⟨rfl, rfl⟩

/-- Witness for C4 at concrete inputs. -/
theorem C4_witness :
    ((redraw_requested ⟨true, none, .Outdated, 0, 0, 0, 16⟩
        st0).2.reconfigure_calls = [] ∧
     (redraw_requested ⟨true, none, .Outdated, 0, 0, 0, 16⟩
        st0).2.frames_presented = 0) ∧
    ((redraw_requested ⟨true, none, .Lost, 16, 16, 16, 16⟩
        (redraw_requested ⟨true, none, .Outdated, 0, 0, 0, 16⟩
          st0).1).2.reconfigure_calls = [(st0.size_w, st0.size_h)] ∧
     (redraw_requested ⟨true, none, .Lost, 16, 16, 16, 16⟩
        (redraw_requested ⟨true, none, .Outdated, 0, 0, 0, 16⟩
          st0).1).2.frames_presented = 0) ∧
    ((redraw_requested ⟨true, none, .Good, 32, 32, 32, 16⟩
        (redraw_requested ⟨true, none, .Lost, 16, 16, 16, 16⟩
          (redraw_requested ⟨true, none, .Outdated, 0, 0, 0, 16⟩
            st0).1).1).2.reconfigure_calls = [] ∧
     (redraw_requested ⟨true, none, .Good, 32, 32, 32, 16⟩
        (redraw_requested ⟨true, none, .Lost, 16, 16, 16, 16⟩
          (redraw_requested ⟨true, none, .Outdated, 0, 0, 0, 16⟩
            st0).1).1).2.frames_presented = 1) ∧
    (∀ inp : RedrawInputs, ∀ st4 : LoopState,
      inp.repaint_after_zero = true → st4.next_frame_time ≤ inp.now →
      inp.acquire = .Timeout →
      (redraw_requested inp st4).2.warn_logged = true ∧
      (redraw_requested inp st4).2.frames_presented = 0) :=
  C4_outdated_lost_configured st0 16 0 16 32 none none none
    (by decide) (by decide) (by decide)

/-! ## Whole-loop model (C6) -/

/-- One dispatch of `event_loop.run`'s closure (`src/main.rs:163-414`), at
the granularity the claims need. `userEvent` models
`app.handle_app_event(event, control_flow)` (external code that may at most
set the exit flag); `redrawRequested` carries the external inputs of that
iteration. -/
inductive LoopEvent where
  | windowEvent (popupCaptures eguiConsumes : WindowEvent → Bool)
      (ev : WindowEvent)
  | userEvent (setsExit : Bool)
  | mainEventsCleared
  | redrawRequested (inp : RedrawInputs)
  | otherEvent

/-- One iteration of the event-loop closure. -/
def loop_step (e : LoopEvent) (st : LoopState) : LoopState :=
  match e with
  | .windowEvent p q ev => (processWindowEvent p q ev st).1
  | .userEvent b => if b then { st with exit_requested := true } else st
  | .mainEventsCleared => st
  | .redrawRequested inp => (redraw_requested inp st).1
  | .otherEvent => st

/-- The event loop as a fold over the incoming event sequence. -/
def run_loop (evs : List LoopEvent) (st : LoopState) : LoopState :=
  evs.foldl (fun s e => loop_step e s) st

lemma processWindowEvent_puzzle_texture_id
    (p q : WindowEvent → Bool) (ev : WindowEvent) (st : LoopState) :
    (processWindowEvent p q ev st).1.puzzle_texture_id =
      st.puzzle_texture_id := by
  cases ev <;> rfl

lemma redraw_requested_puzzle_texture_id (inp : RedrawInputs)
    (st : LoopState) :
    (redraw_requested inp st).1.puzzle_texture_id = st.puzzle_texture_id := by
  by_cases hg : inp.repaint_after_zero = true ∧ st.next_frame_time ≤ inp.now
  · obtain ⟨hz, hle⟩ := hg
    cases hacq : inp.acquire <;>
      simp [redraw_requested, hz, hle, hacq, update_framerate_puzzle_texture_id]
  · simp [redraw_requested, hg]

lemma loop_step_puzzle_texture_id (e : LoopEvent) (st : LoopState) :
    (loop_step e st).puzzle_texture_id = st.puzzle_texture_id := by
  cases e with
  | windowEvent p q ev => exact processWindowEvent_puzzle_texture_id p q ev st
  | userEvent b => cases b <;> simp [loop_step]
  | mainEventsCleared => rfl
  | redrawRequested inp => exact redraw_requested_puzzle_texture_id inp st
  | otherEvent => rfl

/-- C6: the egui texture update (and the repaint requested on its behalf)
happens exactly when `app.draw_puzzle` returned a new texture — a `none`
(unchanged) result skips the update and requests no repaint — and the
texture identifier registered once at startup is never reassigned across
any sequence of loop iterations. -/
theorem C6_texture_bridge :
    (∀ (inp : RedrawInputs) (st : LoopState),
      (redraw_requested inp st).2.texture_updates =
        (if inp.draw_result.isSome then 1 else 0) ∧
      (redraw_requested inp st).2.puzzle_repaint_requested =
        inp.draw_result.isSome) ∧
    (∀ (evs : List LoopEvent) (st : LoopState),
      (run_loop evs st).puzzle_texture_id = st.puzzle_texture_id) := by
  constructor
  · intro inp st
    constructor <;>
      · by_cases hg : inp.repaint_after_zero = true ∧
          st.next_frame_time ≤ inp.now
        · obtain ⟨hz, hle⟩ := hg
          cases hacq : inp.acquire <;>
            simp [redraw_requested, hz, hle, hacq]
        · simp [redraw_requested, hg]
  · intro evs
    induction evs with
    | nil => intro st; rfl
    | cons e tl ih =>
        intro st
        calc (run_loop (e :: tl) st).puzzle_texture_id
            = (run_loop tl (loop_step e st)).puzzle_texture_id := rfl
          _ = (loop_step e st).puzzle_texture_id := ih (loop_step e st)
          _ = st.puzzle_texture_id := loop_step_puzzle_texture_id e st

/-! ## Theme switching (`src/main.rs:450-475`) (C7)

The egui style values are external to this repository; they are modelled as
records carrying a base-profile tag (which `egui::Visuals::dark()` /
`egui::Visuals::light()` constructor was used) and the numeric fields the
overrides touch, with exact rational arithmetic standing in for `f32`. -/

inductive VisualsKind where
  | dark
  | light
deriving DecidableEq

structure Stroke where
  width : Rat
deriving DecidableEq

structure WidgetVisuals where
  bg_stroke : Stroke
deriving DecidableEq

structure Widgets where
  noninteractive : WidgetVisuals
  inactive : WidgetVisuals
  hovered : WidgetVisuals
  active : WidgetVisuals
  open_ : WidgetVisuals
deriving DecidableEq

structure Visuals where
  kind : VisualsKind
  widgets : Widgets
deriving DecidableEq

structure Spacing where
  interact_size_x : Rat
deriving DecidableEq

structure Style where
  visuals : Visuals
  spacing : Spacing
deriving DecidableEq

/-- Model of the egui default widget strokes (all bg strokes 1.0 wide). -/
def default_widgets : Widgets :=
  ⟨⟨⟨1⟩⟩, ⟨⟨1⟩⟩, ⟨⟨1⟩⟩, ⟨⟨1⟩⟩, ⟨⟨1⟩⟩⟩

/-- Model of `egui::Visuals::dark()`. -/
def Visuals.darkProfile : Visuals := ⟨.dark, default_widgets⟩

/-- Model of `egui::Visuals::light()` (a distinct base profile; unused by
the source, which is the point of C7). -/
def Visuals.lightProfile : Visuals := ⟨.light, default_widgets⟩

/-- Model of `egui::Style::default()` (egui defaults to the dark visuals
and an interact size of 40). -/
def default_style : Style := ⟨Visuals.darkProfile, ⟨40⟩⟩

/-- `src/main.rs:464-475`: double the five widget bg-stroke widths and
scale the interact size x by 1.2, on top of the context's current style. -/
def set_style_overrides (s : Style) : Style :=
  { s with
    visuals := { s.visuals with
      widgets :=
        ⟨⟨⟨s.visuals.widgets.noninteractive.bg_stroke.width * 2⟩⟩,
         ⟨⟨s.visuals.widgets.inactive.bg_stroke.width * 2⟩⟩,
         ⟨⟨s.visuals.widgets.hovered.bg_stroke.width * 2⟩⟩,
         ⟨⟨s.visuals.widgets.active.bg_stroke.width * 2⟩⟩,
         ⟨⟨s.visuals.widgets.open_.bg_stroke.width * 2⟩⟩⟩ },
    spacing := ⟨s.spacing.interact_size_x * (6 / 5)⟩ }

/-- `src/main.rs:450-456`: set a fresh default style with dark visuals,
then apply the overrides. The previous context style is discarded. -/
def switch_to_dark_mode (_ctxStyle : Style) : Style :=
  set_style_overrides { default_style with visuals := Visuals.darkProfile }

/-- `src/main.rs:457-463`: the light-mode branch also constructs
`egui::Visuals::dark()` (the source's apparent copy-paste slip), then
applies the same overrides. -/
def switch_to_light_mode (_ctxStyle : Style) : Style :=
  set_style_overrides { default_style with visuals := Visuals.darkProfile }

/-- C7: evaluated on the code, the light-mode switch yields the DARK base
profile, while the light base profile is a genuinely different value; the
light-mode branch is identical to the dark-mode branch for every starting
style (so both do layer the identical fixed overrides, but the bases are
not distinct), contradicting the claim's (and the spec's) intended light
profile. -/
theorem C7_light_mode_sets_dark_profile :
    (switch_to_light_mode default_style).visuals.kind = VisualsKind.dark ∧
    Visuals.lightProfile.kind = VisualsKind.light ∧
    (∀ s : Style, switch_to_light_mode s = switch_to_dark_mode s) :=
  ⟨rfl, rfl, fun _ => rfl⟩

/-! ## Application icon loading (`src/main.rs:417-448`) (C9) -/

/-- `png::ColorType`. -/
inductive PngColorType where
  | Grayscale
  | Rgb
  | Indexed
  | GrayscaleAlpha
  | Rgba
deriving DecidableEq

/-- `png::BitDepth`. -/
inductive PngBitDepth where
  | One
  | Two
  | Four
  | Eight
  | Sixteen
deriving DecidableEq

/-- Result of `winit::window::Icon::from_rgba` on the decoded data. -/
inductive IconOutcome where
  | iconError
  | iconOk (icon : Nat)
deriving DecidableEq

/-- Result of `reader.next_frame`. -/
inductive FrameOutcome where
  | frameError
  | frameOk (o : IconOutcome)
deriving DecidableEq

/-- What the `png` decoder does with the embedded icon bytes: `read_info`
may fail outright; otherwise it reports a color type and bit depth, and the
later frame read and icon construction each may fail. -/
inductive DecodeOutcome where
  | decodeError
  | decoded (c : PngColorType) (b : PngBitDepth) (f : FrameOutcome)
deriving DecidableEq

/-- Result of `load_application_icon`: the icon, if any, and whether a
warning was logged. -/
structure IconLoadResult where
  icon : Option Nat
  warned : Bool
deriving DecidableEq

/-- `src/main.rs:417-448`, with the byte-level decoding abstracted into a
`DecodeOutcome`: every failure branch logs a warning and returns `None`;
only an 8-bit RGBA image whose frame reads and converts successfully yields
an icon. -/
def load_application_icon : DecodeOutcome → IconLoadResult
  | .decodeError => ⟨none, true⟩
  | .decoded c b f =>
    match c, b with
    | .Rgba, .Eight =>
      match f with
      | .frameError => ⟨none, true⟩
      | .frameOk .iconError => ⟨none, true⟩
      | .frameOk (.iconOk i) => ⟨some i, false⟩
    | _, _ => ⟨none, true⟩

/-- The full-success decoding path. -/
def icon_load_succeeds : DecodeOutcome → Bool
  | .decoded .Rgba .Eight (.frameOk (.iconOk _)) => true
  | _ => false

/-- C9: for every possible decoding outcome of the icon bytes, a malformed
icon yields `None` with a logged warning — never a fatal failure — and the
only outcome producing an icon is the full success path (which warns
nothing). -/
theorem C9_icon_failures_graceful (o : DecodeOutcome) :
    (icon_load_succeeds o = false → load_application_icon o = ⟨none, true⟩) ∧
    (icon_load_succeeds o = true →
      ∃ i, load_application_icon o = ⟨some i, false⟩) := by
  constructor
  · intro h
    match o with
    | .decodeError => rfl
    | .decoded c b f =>
        match c, b with
        | .Rgba, .Eight =>
            match f with
            | .frameError => rfl
            | .frameOk .iconError => rfl
            | .frameOk (.iconOk i) => simp [icon_load_succeeds] at h
        | .Grayscale, _ => rfl
        | .Rgb, _ => rfl
        | .Indexed, _ => rfl
        | .GrayscaleAlpha, _ => rfl
        | .Rgba, .One => rfl
        | .Rgba, .Two => rfl
        | .Rgba, .Four => rfl
        | .Rgba, .Sixteen => rfl
  · intro h
    cases o with
    | decodeError => simp [icon_load_succeeds] at h
    | decoded c b f =>
        cases f with
        | frameError =>
            cases c <;> cases b <;> simp [icon_load_succeeds] at h
        | frameOk io =>
            cases io with
            | iconError =>
                cases c <;> cases b <;> simp [icon_load_succeeds] at h
            | iconOk i =>
                cases c <;> cases b <;>
                  first
                    | exact ⟨i, rfl⟩
                    | simp [icon_load_succeeds] at h

/-- Witness for C9: both branches at concrete decode outcomes. -/
theorem C9_witness :
    load_application_icon .decodeError = ⟨none, true⟩ ∧
    ∃ i, load_application_icon
      (.decoded .Rgba .Eight (.frameOk (.iconOk 5))) = ⟨some i, false⟩ :=
  ⟨(C9_icon_failures_graceful .decodeError).1 (by decide),
   (C9_icon_failures_graceful
      (.decoded .Rgba .Eight (.frameOk (.iconOk 5)))).2 (by decide)⟩

end Hyperspeedcube
